import Mathlib

/-!
Verification of the client-side data synchronization layer of the
sfbay_wizard personal-finance dashboard.  Each definition below is a
shallow embedding of one function of the repository (file and line
references in the doc comments); theorems at the end settle the
frozen claims C1 - C10 against these definitions.
-/

set_option linter.unusedVariables false

/-! ## Error classifier (src/lib/supabase/errors.ts) -/

/-- Error taxonomy, from the `SupabaseErrorType` enum
(src/lib/supabase/errors.ts lines 6-12). -/
inductive SupabaseErrorType where
  | AUTH_ERROR
  | NETWORK_ERROR
  | PERMISSION_ERROR
  | VALIDATION_ERROR
  | UNKNOWN_ERROR
deriving DecidableEq, Repr

open SupabaseErrorType

/-- A classified error: the `message` and `type` fields of the
`SupabaseError` class (src/lib/supabase/errors.ts lines 17-32);
the `originalError` payload is not needed by any claim. -/
structure SupabaseErrorRec where
  message : String
  type : SupabaseErrorType
deriving DecidableEq, Repr

/-- `ERROR_MESSAGES[AUTH_ERROR]` (errors.ts line 38). -/
def AUTH_ERROR_MSG : String := "Authentication failed. Please log in again."

/-- `ERROR_MESSAGES[NETWORK_ERROR]` (errors.ts line 39). -/
def NETWORK_ERROR_MSG : String := "Network error. Please check your connection."

/-- `ERROR_MESSAGES[PERMISSION_ERROR]` (errors.ts line 40). -/
def PERMISSION_ERROR_MSG : String := "You don\x27t have permission to perform this action."

/-- `ERROR_MESSAGES[VALIDATION_ERROR]` (errors.ts line 41). -/
def VALIDATION_ERROR_MSG : String := "Invalid data. Please check your input."

/-- `ERROR_MESSAGES[UNKNOWN_ERROR]` (errors.ts line 42). -/
def UNKNOWN_ERROR_MSG : String := "An unexpected error occurred. Please try again."

/-- The shape of a raw failure as `transformError` duck-types it:
`supabase` is `some s` when the value is already a `SupabaseError`
instance `s`; `name`, `code`, `message`, `details` are the string
fields the classifier reads (absent fields are `none`);
`isAuthErrorFlag` models the `__isAuthError` marker and
`isTypeError` models `instanceof TypeError`. -/
structure RawError where
  supabase : Option SupabaseErrorRec := none
  name : Option String := none
  isAuthErrorFlag : Bool := false
  code : Option String := none
  message : Option String := none
  details : Option String := none
  isTypeError : Bool := false
deriving DecidableEq, Repr

/-- JavaScript truthiness of an optional string field: absent and
empty strings are falsy, every other string is truthy. -/
def jsTruthy (o : Option String) : Bool :=
  match o with
  | none => false
  | some s => s ≠ ""

/-- JavaScript `a || b` on an optional string (used for
`error.message || ERROR_MESSAGES[...]`). -/
def jsOr (o : Option String) (d : String) : String :=
  match o with
  | none => d
  | some s => if s = "" then d else s

/-- Membership of `pat` as a contiguous sublist, mirroring
JavaScript `String.prototype.includes` on the character lists. -/
def listIncludes (pat : List Char) : List Char → Bool
  | [] => pat.isEmpty
  | c :: rest => pat.isPrefixOf (c :: rest) || listIncludes pat rest

/-- `s.includes pat` for strings. -/
def strIncludes (s pat : String) : Bool :=
  listIncludes pat.toList s.toList

/-- `transformPostgrestError` (errors.ts lines 48-79): code
`PGRST301` is Permission, `23505` and `23503` are Validation with
the uniqueness and foreign-key messages, anything else is Unknown
carrying the raw message when present. -/
def transformPostgrestError (e : RawError) : SupabaseErrorRec :=
  if e.code = some "PGRST301" then
    ⟨PERMISSION_ERROR_MSG, PERMISSION_ERROR⟩
  else if e.code = some "23505" then
    ⟨"This record already exists.", VALIDATION_ERROR⟩
  else if e.code = some "23503" then
    ⟨"Invalid reference. The related record does not exist.", VALIDATION_ERROR⟩
  else
    ⟨jsOr e.message UNKNOWN_ERROR_MSG, UNKNOWN_ERROR⟩

/-- `transformAuthError` (errors.ts lines 84-115): substring checks
on the raw auth message, in source order; note that the
duplicate-registration message is mapped to `VALIDATION_ERROR`. -/
def transformAuthError (msg : String) : SupabaseErrorRec :=
  if strIncludes msg "Invalid login credentials" then
    ⟨"Invalid email or password.", AUTH_ERROR⟩
  else if strIncludes msg "Email not confirmed" then
    ⟨"Please confirm your email address before logging in.", AUTH_ERROR⟩
  else if strIncludes msg "User already registered" then
    ⟨"An account with this email already exists.", VALIDATION_ERROR⟩
  else
    ⟨if msg = "" then AUTH_ERROR_MSG else msg, AUTH_ERROR⟩

/-- Whether `transformError` takes the auth branch
(`error?.name === "AuthError" || error?.__isAuthError`,
errors.ts line 127). -/
def authShaped (e : RawError) : Bool :=
  e.name = some "AuthError" || e.isAuthErrorFlag

/-- Whether `transformError` takes the postgrest branch
(`error?.code && error?.message && error?.details`,
errors.ts line 132). -/
def pgShaped (e : RawError) : Bool :=
  jsTruthy e.code && jsTruthy e.message && jsTruthy e.details

/-- `transformError` (errors.ts lines 120-159), with the branches in
source order: pass-through of already-classified errors, then the
auth branch, then the postgrest branch, then the two
fetch/connectivity checks, else Unknown. -/
def transformError (e : RawError) : SupabaseErrorRec :=
  match e.supabase with
  | some s => s
  | none =>
    if authShaped e then
      transformAuthError (e.message.getD "")
    else if pgShaped e then
      transformPostgrestError e
    else if e.isTypeError && strIncludes (e.message.getD "") "fetch" then
      ⟨NETWORK_ERROR_MSG, NETWORK_ERROR⟩
    else if strIncludes (e.message.getD "") "NetworkError"
        || strIncludes (e.message.getD "") "Failed to fetch" then
      ⟨NETWORK_ERROR_MSG, NETWORK_ERROR⟩
    else
      ⟨jsOr e.message UNKNOWN_ERROR_MSG, UNKNOWN_ERROR⟩

/-- `isNetworkError` (errors.ts lines 172-175). -/
def isNetworkError (e : RawError) : Bool :=
  (transformError e).type = NETWORK_ERROR

/-! ## Remote operation wrappers

Two distinct retry loops exist in the source.  The shared utility
(`withRetry` in the retry module, src/unnamed/part_001 lines 63-103)
runs `for attempt = 0; attempt <= maxRetries; attempt++` and consults
a `shouldRetry` predicate.  Each entity service (transactions
src/unnamed/part_000 lines 6-20, categories
src/lib/supabase/services/categories.ts lines 6-20, goals
src/lib/supabase/services/goals.ts lines 16-30) instead defines its
own local `withRetry` running `for i = 0; i < maxRetries; i++` with
no predicate at all.

An asynchronous operation is embedded as `op : Nat → Except E A`
giving the outcome of its i-th invocation; the wrappers return the
final outcome together with the number of invocations performed. -/

/-- Final outcome of a retry loop: success, the last raised error, or
the unreachable trailing `throw new Error` of the source loops. -/
inductive RetryResult (E A : Type) where
  | ok (a : A)
  | err (e : E)
  | exhausted
deriving DecidableEq, Repr

/-- Loop body of the shared `withRetry` (src/unnamed/part_001 lines
70-99), iterating `attempt` upward; `fuel` is the number of loop
iterations still allowed (`maxRetries - attempt` at every call), so
the recursion is structural.  When the operation fails, the loop
re-raises if this was attempt `maxRetries` or `shouldRetry` rejects
the error; otherwise it waits and retries. -/
def withRetryGo {E A : Type} (op : Nat → Except E A) (shouldRetry : E → Bool)
    (maxRetries : Nat) : Nat → Nat → RetryResult E A × Nat
  | attempt, fuel =>
    match op attempt with
    | .ok a => (.ok a, attempt + 1)
    | .error e =>
      if attempt = maxRetries || !shouldRetry e then
        (.err e, attempt + 1)
      else
        match fuel with
        | 0 => (.err e, attempt + 1)
        | f + 1 => withRetryGo op shouldRetry maxRetries (attempt + 1) f

/-- The shared `withRetry` (src/unnamed/part_001 lines 63-103),
entered at attempt 0. -/
def withRetry {E A : Type} (op : Nat → Except E A) (shouldRetry : E → Bool)
    (maxRetries : Nat) : RetryResult E A × Nat :=
  withRetryGo op shouldRetry maxRetries 0 maxRetries

/-- The `shouldRetry` of `DEFAULT_RETRY_OPTIONS`
(src/unnamed/part_001 lines 26-29): retry exactly on network
errors. -/
def defaultShouldRetry (e : RawError) : Bool :=
  isNetworkError e

/-- The `shouldRetry` of `withDatabaseRetry` (src/unnamed/part_001
lines 124-136): network errors plus the transient database codes
`PGRST301` and `08000`. -/
def databaseShouldRetry (e : RawError) : Bool :=
  isNetworkError e || e.code = some "PGRST301" || e.code = some "08000"

/-- `withDatabaseRetry` (src/unnamed/part_001 lines 120-137):
the shared wrapper at `maxRetries = 3` with `databaseShouldRetry`. -/
def withDatabaseRetry {A : Type} (op : Nat → Except RawError A) :
    RetryResult RawError A × Nat :=
  withRetry op databaseShouldRetry 3

/-- Loop body of the local `withRetry` each entity service defines
(src/unnamed/part_000 lines 6-20 and the identical copies in the
categories and goals services): `for i = 0; i < maxRetries; i++`,
re-raising at `i = maxRetries - 1` and otherwise retrying on every
error, with `throw new Error` after the loop.  `fuel` is the number
of loop iterations left (`maxRetries - i` at every call). -/
def serviceWithRetryGo {E A : Type} (op : Nat → Except E A)
    (maxRetries : Nat) : Nat → Nat → RetryResult E A × Nat
  | i, 0 => (.exhausted, i)
  | i, fuel + 1 =>
    match op i with
    | .ok a => (.ok a, i + 1)
    | .error e =>
      if i = maxRetries - 1 then
        (.err e, i + 1)
      else
        serviceWithRetryGo op maxRetries (i + 1) fuel

/-- The entity service-local `withRetry`, entered at `i = 0` with
`maxRetries` loop iterations available. -/
def serviceWithRetry {E A : Type} (op : Nat → Except E A)
    (maxRetries : Nat) : RetryResult E A × Nat :=
  serviceWithRetryGo op maxRetries 0 maxRetries

/-! ## Backoff policy (src/unnamed/part_001 lines 40-54) -/

/-- `calculateBackoffDelay`: exponential delay `baseDelay * 2 ^
attempt`, jitter `0.5 + Math.random()` for `random` in [0, 1),
capped at `maxDelay`.  The random draw is passed explicitly. -/
def calculateBackoffDelay (attempt : Nat) (baseDelay maxDelay random : ℚ) : ℚ :=
  let exponentialDelay := baseDelay * 2 ^ attempt
  let jitter := 1 / 2 + random
  let delayWithJitter := exponentialDelay * jitter
  min delayWithJitter maxDelay

/-! ## Optimistic mutation hooks (src/hooks, src/unnamed/part_010)

Each mutating hook is embedded as a function of the connectivity
environment (`navigatorDefined`, `onLine`) and the outcome of the
underlying entity-service call, returning what the hook observably
did: the error it threw (if any), whether the optimistic callback
was invoked, whether the service call was made, and whether the
rollback callback was invoked.  The optimistic and rollback
callbacks are taken as provided (the claims quantify over callers
that supply them). -/

/-- Observable behaviour of one mutation-hook invocation. -/
structure MutRun where
  threw : Option String
  optimisticApplied : Bool
  remoteCalled : Bool
  rolledBack : Bool
deriving DecidableEq, Repr

/-- Offline message of `addTransaction` (src/unnamed/part_010 line 141). -/
def OFFLINE_ADD_TXN_MSG : String :=
  "You are offline. Please connect to the internet to add transactions."

/-- Offline message of `updateCategoryMutation`
(src/hooks/useCategories.ts line 195). -/
def OFFLINE_UPDATE_CAT_MSG : String :=
  "You are offline. Please connect to the internet to update categories."

/-- Offline message of `addContributionMutation`
(src/hooks/useGoals.ts line 192). -/
def OFFLINE_ADD_CONTRIB_MSG : String :=
  "You are offline. Please connect to the internet to add contributions."

/-- `addTransaction` of `useAddTransaction` (src/unnamed/part_010
lines 132-178): authentication guard, then the
`typeof navigator !== undefined && !navigator.onLine` guard, then
optimistic insert, then `createTransaction`; rollback on failure. -/
def addTransactionRun (navigatorDefined onLine userPresent : Bool)
    (remote : Except String Unit) : MutRun :=
  if !userPresent then
    ⟨some "User not authenticated", false, false, false⟩
  else if navigatorDefined && !onLine then
    ⟨some OFFLINE_ADD_TXN_MSG, false, false, false⟩
  else
    match remote with
    | .ok _ => ⟨none, true, true, false⟩
    | .error e => ⟨some e, true, true, true⟩

/-- `deleteTransactionMutation` of `useDeleteTransaction`
(src/unnamed/part_010 lines 193-210): it consults neither
`navigator` nor any optimistic callback and calls
`deleteTransaction` unconditionally (the connectivity parameters
are part of the environment but the source never reads them). -/
def deleteTransactionRun (navigatorDefined onLine : Bool)
    (remote : Except String Unit) : MutRun :=
  match remote with
  | .ok _ => ⟨none, false, true, false⟩
  | .error e => ⟨some e, false, true, false⟩

/-- `updateGoalMutation` of `useUpdateGoal` (src/hooks/useGoals.ts
lines 156-184): no connectivity guard; it applies the optimistic
update and calls `updateGoal` unconditionally, rolling back on
failure. -/
def updateGoalRun (navigatorDefined onLine : Bool)
    (remote : Except String Unit) : MutRun :=
  match remote with
  | .ok _ => ⟨none, true, true, false⟩
  | .error e => ⟨some e, true, true, true⟩

/-- `updateCategoryMutation` of `useUpdateCategory`
(src/hooks/useCategories.ts lines 189-222): connectivity guard,
then optimistic update, then `updateCategory`; rollback on
failure. -/
def updateCategoryRun (navigatorDefined onLine : Bool)
    (remote : Except String Unit) : MutRun :=
  if navigatorDefined && !onLine then
    ⟨some OFFLINE_UPDATE_CAT_MSG, false, false, false⟩
  else
    match remote with
    | .ok _ => ⟨none, true, true, false⟩
    | .error e => ⟨some e, true, true, true⟩

/-- `addContributionMutation` of `useUpdateGoal`
(src/hooks/useGoals.ts lines 186-216): connectivity guard, then
optimistic update, then `addContribution`; rollback on failure. -/
def addContributionRun (navigatorDefined onLine : Bool)
    (remote : Except String Unit) : MutRun :=
  if navigatorDefined && !onLine then
    ⟨some OFFLINE_ADD_CONTRIB_MSG, false, false, false⟩
  else
    match remote with
    | .ok _ => ⟨none, true, true, false⟩
    | .error e => ⟨some e, true, true, true⟩

/-! ## Rollback data flow of the update mutations

`updateCategoryMutation` (useCategories.ts lines 201-214) and
`updateGoalMutation` (useGoals.ts lines 163-177) build
`previousData` as a spread copy of `updates` and pass it to
`onRollback` when the service call fails.  Per the repo
optimistic-updates documentation (src/docs/OPTIMISTIC_UPDATES.md
lines 40-46) the caller applies both callbacks as field merges
`\x7b ...record, ...arg \x7d`.  The flow below tracks the patched
field of one record through apply and rollback. -/

/-- State of the patched field after `updateCategoryMutation` runs
on a record whose patched field holds `initial`, together with the
argument handed to `onRollback` (if it was invoked).  `updates` is
the new value of the patched field; `previousData := updates` is
the copy the source makes. -/
def updateCategoryMutationRun (initial updates : ℚ) (remoteFails : Bool) :
    ℚ × Option ℚ :=
  let previousData := updates
  let afterOptimistic := updates
  if remoteFails then (previousData, some previousData)
  else (afterOptimistic, none)

/-- `addContributionMutation` data flow (useGoals.ts lines 198-209)
for a caller that applies the callback arguments as deltas on
`current_amount` (the repository documented contribution
handler): the optimistic argument is `amount`, the rollback
argument is `-amount`. -/
def addContributionMutationRun (initial amount : ℚ) (remoteFails : Bool) :
    ℚ × Option ℚ :=
  let afterOptimistic := initial + amount
  if remoteFails then (afterOptimistic + (-amount), some (-amount))
  else (afterOptimistic, none)

/-! ## Transaction service with category-total side effect
(src/unnamed/part_000) -/

/-- The transaction row fields read by `createTransaction` and
`deleteTransaction`: the linked category (nullable), the amount, and
the owner. -/
structure TxnRecord where
  category_id : Option String
  amount : ℚ
  user_id : String
deriving DecidableEq, Repr

/-- The category row as fetched for the secondary write: its
`value` column (nullable running total). -/
structure CategoryRecord where
  value : Option ℚ
deriving DecidableEq, Repr

/-- Outcomes of the remote calls that one `deleteTransaction`
attempt performs, in source order (src/unnamed/part_000 lines
118-175): fetch the transaction, delete it, fetch the linked
category, update the category total (a function of the value
written). -/
structure DeleteTxnEnv where
  fetchTxn : Except String TxnRecord
  deleteTxn : Except String Unit
  fetchCategory : Except String (Option CategoryRecord)
  updateCategory : ℚ → Except String Unit

/-- What one attempt of a transaction-service operation observably
did: the primary result, the new category total passed to the
category update call (if that call was made), and how many
secondary failures were logged and swallowed. -/
structure SecondaryWriteOutcome where
  primary : Except String Unit
  categoryNewValue : Option ℚ
  swallowedFailures : Nat
deriving Repr

/-- One attempt of `deleteTransaction` (src/unnamed/part_000 lines
118-175): the transaction fetch and the delete propagate their
errors; the category fetch and category update are logged and
swallowed; the new total is `Math.max(0, (category.value || 0) -
transaction.amount)` (line 155). -/
def deleteTransactionAttempt (env : DeleteTxnEnv) : SecondaryWriteOutcome :=
  match env.fetchTxn with
  | .error e => ⟨.error e, none, 0⟩
  | .ok txn =>
    match env.deleteTxn with
    | .error e => ⟨.error e, none, 0⟩
    | .ok _ =>
      match txn.category_id with
      | none => ⟨.ok (), none, 0⟩
      | some _ =>
        match env.fetchCategory with
        | .error _ => ⟨.ok (), none, 1⟩
        | .ok none => ⟨.ok (), none, 0⟩
        | .ok (some category) =>
          let newValue := max 0 (category.value.getD 0 - txn.amount)
          match env.updateCategory newValue with
          | .error _ => ⟨.ok (), some newValue, 1⟩
          | .ok _ => ⟨.ok (), some newValue, 0⟩

/-- Outcomes of the remote calls that one `createTransaction`
attempt performs (src/unnamed/part_000 lines 51-116): insert the
transaction row, fetch the linked category, update the category
total. -/
structure CreateTxnEnv where
  insertTxn : Except String TxnRecord
  fetchCategory : Except String (Option CategoryRecord)
  updateCategory : ℚ → Except String Unit

/-- Observable behaviour of one `createTransaction` attempt: the
created row (or the propagated insert error), the new category
total sent to the update call, and the number of swallowed
secondary failures. -/
structure CreateOutcome where
  result : Except String TxnRecord
  categoryNewValue : Option ℚ
  swallowedFailures : Nat
deriving Repr

/-- One attempt of `createTransaction` (src/unnamed/part_000 lines
51-116): the insert error propagates; if the input names a
category, its total is fetched and increased by the amount
(`(category.value || 0) + transaction.amount`, line 90); both
secondary failures are logged and swallowed and `newTransaction`
is returned regardless. -/
def createTransactionAttempt (input : TxnRecord) (env : CreateTxnEnv) :
    CreateOutcome :=
  match env.insertTxn with
  | .error e => ⟨.error e, none, 0⟩
  | .ok newTxn =>
    match input.category_id with
    | none => ⟨.ok newTxn, none, 0⟩
    | some _ =>
      match env.fetchCategory with
      | .error _ => ⟨.ok newTxn, none, 1⟩
      | .ok none => ⟨.ok newTxn, none, 0⟩
      | .ok (some category) =>
        let newValue := category.value.getD 0 + input.amount
        match env.updateCategory newValue with
        | .error _ => ⟨.ok newTxn, some newValue, 1⟩
        | .ok _ => ⟨.ok newTxn, some newValue, 0⟩

/-! ## Sync-store fetch paths and the local cache

The hooks keep the exposed collection in React state and mirror it
into `localStorage` under a per-owner key.  The state records below
carry both, so cache fidelity is the statement
`cache = some collection` after a step. -/

/-- State of `useTransactions` (src/unnamed/part_010 lines 18-25):
exposed list, cached entry, paging offset, `hasMore`, error and
loading flags.  The element type is abstract; the hook never
inspects the rows. -/
structure TxnSyncState (α : Type) where
  transactions : List α
  cache : Option (List α)
  offset : Nat
  hasMore : Bool
  error : Option String
  loading : Bool

/-- One completion of `fetchTransactions` (src/unnamed/part_010
lines 41-71) given the service outcome `res`: on success with
`reset = true` the list is replaced, the offset reset and the cache
written; with `reset = false` (the load-more path) the page is
appended and the cache is NOT written; on failure the error is
stored and the list kept. -/
def fetchTransactionsStep {α : Type} (limit : Nat) (reset : Bool)
    (st : TxnSyncState α) (res : Except String (List α)) : TxnSyncState α :=
  match res with
  | .error e => { st with error := some e, loading := false }
  | .ok data =>
    if reset then
      { transactions := data
        cache := some data
        offset := 0
        hasMore := data.length = limit
        error := none
        loading := false }
    else
      { st with
        transactions := st.transactions ++ data
        hasMore := data.length = limit
        error := none
        loading := false }

/-- The realtime-subscription callback of `useTransactions`
(src/unnamed/part_010 lines 93-101): the refetched list replaces
the exposed list and is written to the cache. -/
def realtimeTransactionsUpdate {α : Type} (limit : Nat)
    (st : TxnSyncState α) (updated : List α) : TxnSyncState α :=
  { st with
    transactions := updated
    offset := 0
    hasMore := updated.length = limit
    cache := some updated }

/-- State of `useGoals` (src/hooks/useGoals.ts lines 22-26). -/
structure GoalsSyncState (α : Type) where
  goals : List α
  cache : Option (List α)
  error : Option String
  loading : Bool

/-- One completion of `fetchGoals` (src/hooks/useGoals.ts lines
43-63): on success the list is replaced and cached; on failure the
error is stored. -/
def fetchGoalsStep {α : Type} (st : GoalsSyncState α)
    (res : Except String (List α)) : GoalsSyncState α :=
  match res with
  | .error e => { st with error := some e, loading := false }
  | .ok data =>
    { goals := data, cache := some data, error := none, loading := false }

/-- The `FIXED_CATEGORIES` list (src/hooks/useCategories.ts lines
17-28). -/
def fixedCategories : List String :=
  ["Food and Groceries", "Shopping", "Housing", "Transportation",
   "Debt Payments", "Entertainment", "Utilities", "Healthcare",
   "Personal", "Insurance"]

/-- The name of a spending-category row (the only field the
`fetchCategories` sort comparator reads). -/
structure SCat where
  name : String
deriving DecidableEq, Repr

/-- Sort key induced by the comparator of `fetchCategories`
(useCategories.ts lines 99-112 and 121-131): position in
`FIXED_CATEGORIES`, with non-fixed categories after all fixed
ones. -/
def catSortKey (c : SCat) : Nat :=
  match fixedCategories.indexOf? c.name with
  | some i => i
  | none => fixedCategories.length

/-- Stable insertion used to model `Array.prototype.sort` (a stable
sort) under the comparator: the new element goes after every
already-placed element whose key is not greater. -/
def insertByKey (x : SCat) : List SCat → List SCat
  | [] => [x]
  | y :: ys =>
    if catSortKey y ≤ catSortKey x then y :: insertByKey x ys
    else x :: y :: ys

/-- Stable sort by `catSortKey`, modelling the
`allCategories.sort(comparator)` calls of `fetchCategories`. -/
def sortCategories (l : List SCat) : List SCat :=
  l.foldl (fun acc x => insertByKey x acc) []

/-- State of `useCategories` (useCategories.ts lines 44-48). -/
structure CatSyncState where
  categories : List SCat
  cache : Option (List SCat)
  error : Option String
  loading : Bool

/-- The success path of `fetchCategories` (useCategories.ts lines
71-138) given the fetched rows `data` and the row returned by
`createCategory` for each missing fixed name: if fixed categories
are missing they are created and merged, the merged (or plain)
list is sorted, exposed and cached. -/
def fetchCategoriesSuccess (data : List SCat)
    (createResult : String → SCat) : CatSyncState :=
  let existingNames := data.map (fun c => c.name)
  let missing := fixedCategories.filter (fun n => !existingNames.contains n)
  if missing.length > 0 then
    let newCategories := missing.map createResult
    let allCategories := data ++ newCategories
    let sorted := sortCategories allCategories
    { categories := sorted, cache := some sorted, error := none, loading := false }
  else
    let sorted := sortCategories data
    { categories := sorted, cache := some sorted, error := none, loading := false }

/-- The realtime-subscription callback of `useCategories`
(useCategories.ts lines 155-161) and of `useGoals` (useGoals.ts
lines 73-79): the refetched list replaces the exposed list and is
written to the cache. -/
def realtimeCategoriesUpdate (st : CatSyncState) (updated : List SCat) :
    CatSyncState :=
  { st with categories := updated, cache := some updated }

/-! ## Change-event subscription (src/unnamed/part_000 lines
181-208, src/lib/supabase/services/goals.ts lines 159-186)

The realtime handler registered by `subscribeToTransactions` and
`subscribeToGoals` is the stateless closure
`async () => \x7b const xs = await list(userId); callback(xs) \x7d`:
it holds no in-flight flag, so its reaction to a change event
cannot depend on how many earlier refetches are still pending.  A
trace is a list of steps — a change event arriving, or one pending
refetch resolving — and the model counts refetches in flight. -/

/-- One step of a subscription trace. -/
inductive SyncStep where
  | change
  | resolve
deriving DecidableEq, Repr

/-- Whether the registered handler starts a `list` refetch when a
change event arrives, as a function of the number of refetches
already pending.  The source closure is stateless and
unconditionally awaits `getTransactions` / `getGoals`, so this is
constantly `true`. -/
def changeHandlerStartsFetch (pendingFetches : Nat) : Bool :=
  true

/-- Number of refetches in flight after one trace step. -/
def stepInFlight (n : Nat) : SyncStep → Nat
  | .change => if changeHandlerStartsFetch n then n + 1 else n
  | .resolve => n - 1

/-- Refetches in flight after a whole trace, starting from none. -/
def inFlightAfter (trace : List SyncStep) : Nat :=
  trace.foldl stepInFlight 0

/-- Auxiliary recursion for `maxInFlight`: current count and
running maximum. -/
def maxInFlightGo : Nat → Nat → List SyncStep → Nat
  | _, m, [] => m
  | n, m, s :: rest =>
    let n2 := stepInFlight n s
    maxInFlightGo n2 (max m n2) rest

/-- The largest number of `list` refetches simultaneously in flight
along a trace. -/
def maxInFlight (trace : List SyncStep) : Nat :=
  maxInFlightGo 0 0 trace

/-! ## Helper lemmas on the retry loops -/

/-- If every invocation fails with a retryable error, the shared
retry loop entered at `attempt` with `maxRetries - attempt` fuel
re-raises after attempt `maxRetries`, having invoked the operation
`maxRetries + 1` times. -/
theorem withRetryGo_always_err {E A : Type} (op : Nat → Except E A)
    (sr : E → Bool) (maxRetries : Nat) (e : E)
    (hop : ∀ i, op i = .error e) (hsr : sr e = true) :
    ∀ fuel attempt, attempt + fuel = maxRetries →
      withRetryGo op sr maxRetries attempt fuel = (.err e, maxRetries + 1) := by
  intro fuel
  induction fuel with
  | zero =>
    intro attempt h
    have ha : attempt = maxRetries := by omega
    unfold withRetryGo
    rw [hop attempt]
    simp [ha]
  | succ f ih =>
    intro attempt h
    have hne : attempt ≠ maxRetries := by omega
    unfold withRetryGo
    rw [hop attempt]
    simp [hne, hsr]
    exact ih (attempt + 1) (by omega)

/-- If an invocation fails with an error the predicate rejects, the
shared retry loop re-raises immediately: one invocation total. -/
theorem withRetry_no_retry {E A : Type} (op : Nat → Except E A)
    (sr : E → Bool) (maxRetries : Nat) (e : E)
    (h0 : op 0 = .error e) (hsr : sr e = false) :
    withRetry op sr maxRetries = (.err e, 1) := by
  unfold withRetry withRetryGo
  rw [h0]
  simp [hsr]

/-- If every invocation fails, the entity service-local retry
loop entered at `i` with `maxRetries - i` fuel re-raises at
`i = maxRetries - 1`, having invoked the operation `maxRetries`
times. -/
theorem serviceWithRetryGo_always_err {E A : Type} (op : Nat → Except E A)
    (maxRetries : Nat) (e : E) (hop : ∀ i, op i = .error e) :
    ∀ fuel i, i + fuel = maxRetries → 1 ≤ fuel →
      serviceWithRetryGo op maxRetries i fuel = (.err e, maxRetries) := by
  intro fuel
  induction fuel with
  | zero => intro i h h1; omega
  | succ f ih =>
    intro i h h1
    unfold serviceWithRetryGo
    rw [hop i]
    by_cases hf : f = 0
    · subst hf
      have : i = maxRetries - 1 := by omega
      simp [this]
      omega
    · have hne : i ≠ maxRetries - 1 := by omega
      simp [hne]
      exact ih (i + 1) (by omega) (by omega)

/-! ## Claim theorems -/

/-- Claim C7: for every deleted transaction linked to a category,
the new category total passed to the category update equals
`max 0 (previous total - transaction amount)`, and every total so
computed is nonnegative. -/
theorem C7_delete_adjusts_category_total (env : DeleteTxnEnv)
    (cid uid : String) (amt v : ℚ)
    (h1 : env.fetchTxn = .ok ⟨some cid, amt, uid⟩)
    (h2 : env.deleteTxn = .ok ())
    (h3 : env.fetchCategory = .ok (some ⟨some v⟩)) :
    (deleteTransactionAttempt env).categoryNewValue = some (max 0 (v - amt)) ∧
    ∀ (env2 : DeleteTxnEnv) (w : ℚ),
      (deleteTransactionAttempt env2).categoryNewValue = some w → 0 ≤ w := by
  constructor
  · revert h1 h2 h3
    obtain ⟨ft, dt, fc, uc⟩ := env
    intro h1 h2 h3
    subst h1; subst h2; subst h3
    cases hu : uc (max 0 (v - amt)) <;> simp [deleteTransactionAttempt, hu]
  · intro env2 w hw
    obtain ⟨ft, dt, fc, uc⟩ := env2
    rcases ft with e | ⟨cat_id, amount, user⟩
    · simp [deleteTransactionAttempt] at hw
    rcases dt with e | u
    · simp [deleteTransactionAttempt] at hw
    rcases cat_id with _ | c
    · simp [deleteTransactionAttempt] at hw
    rcases fc with e | _ | ⟨⟨ov⟩⟩
    · simp [deleteTransactionAttempt] at hw
    · simp [deleteTransactionAttempt] at hw
    cases hu : uc (max 0 (ov.getD 0 - amount)) <;>
      simp [deleteTransactionAttempt, hu] at hw <;>
      (rw [← hw]; exact le_max_left 0 _)

/-- Witness for C7 at the spec scenario: deleting a 45.25
transaction linked to a category whose total is 200.00 sends the
new total 154.75 to the category update. -/
theorem C7_witness :
    (deleteTransactionAttempt
      ⟨.ok ⟨some "cat-1", (45.25 : ℚ), "user-1"⟩, .ok (),
       .ok (some ⟨some (200 : ℚ)⟩), fun _ => .ok ()⟩).categoryNewValue =
      some (154.75 : ℚ) := by
  have h := C7_delete_adjusts_category_total
    ⟨.ok ⟨some "cat-1", (45.25 : ℚ), "user-1"⟩, .ok (),
     .ok (some ⟨some (200 : ℚ)⟩), fun _ => .ok ()⟩
    "cat-1" "user-1" (45.25 : ℚ) 200 rfl rfl rfl
  rw [h.1, max_eq_right (by norm_num : (0 : ℚ) ≤ 200 - 45.25)]
  norm_num

/-- Claim C8: a failure of the secondary category-total write
(category fetch or category update) never propagates: the created
transaction is still returned and the deletion still succeeds. -/
theorem C8_secondary_failures_swallowed :
    (∀ (input t : TxnRecord) (env : CreateTxnEnv),
      env.insertTxn = .ok t → (createTransactionAttempt input env).result = .ok t) ∧
    (∀ (env : DeleteTxnEnv) (txn : TxnRecord),
      env.fetchTxn = .ok txn → env.deleteTxn = .ok () →
      (deleteTransactionAttempt env).primary = .ok ()) := by
  constructor
  · intro input t env hins
    revert hins
    obtain ⟨it, fc, uc⟩ := env
    intro hins
    subst hins
    obtain ⟨cat_id, amount, user⟩ := input
    rcases cat_id with _ | c
    · simp [createTransactionAttempt]
    rcases fc with e | _ | ⟨⟨ov⟩⟩
    · simp [createTransactionAttempt]
    · simp [createTransactionAttempt]
    cases hu : uc (ov.getD 0 + amount) <;> simp [createTransactionAttempt, hu]
  · intro env txn hf hd
    revert hf hd
    obtain ⟨ft, dt, fc, uc⟩ := env
    intro hf hd
    subst hf; subst hd
    obtain ⟨cat_id, amount, user⟩ := txn
    rcases cat_id with _ | c
    · simp [deleteTransactionAttempt]
    rcases fc with e | _ | ⟨⟨ov⟩⟩
    · simp [deleteTransactionAttempt]
    · simp [deleteTransactionAttempt]
    cases hu : uc (max 0 (ov.getD 0 - amount)) <;> simp [deleteTransactionAttempt, hu]

/-- Witness for C8: with the category fetch failing, the created
transaction is still returned and the delete still succeeds. -/
theorem C8_witness :
    (createTransactionAttempt ⟨some "cat-1", 10, "user-1"⟩
      ⟨.ok ⟨some "cat-1", 10, "user-1"⟩, .error "category fetch failed",
       fun _ => .ok ()⟩).result = .ok ⟨some "cat-1", 10, "user-1"⟩ ∧
    (deleteTransactionAttempt
      ⟨.ok ⟨some "cat-1", 10, "user-1"⟩, .ok (),
       .error "category fetch failed", fun _ => .ok ()⟩).primary = .ok () :=
  ⟨C8_secondary_failures_swallowed.1 ⟨some "cat-1", 10, "user-1"⟩
      ⟨some "cat-1", 10, "user-1"⟩ _ rfl,
   C8_secondary_failures_swallowed.2 _ ⟨some "cat-1", 10, "user-1"⟩ rfl rfl⟩

/-- Claim C1 (counterexample): `updateGoalMutation` invoked while
the runtime reports offline (`navigator` defined, `onLine` false)
still applies its optimistic patch and still performs the remote
call, and does not reject; `deleteTransactionMutation` likewise
still performs the remote call. -/
theorem C1_counterexample :
    (updateGoalRun true false (.ok ())).remoteCalled = true ∧
    (updateGoalRun true false (.ok ())).optimisticApplied = true ∧
    (updateGoalRun true false (.ok ())).threw = none ∧
    (deleteTransactionRun true false (.ok ())).remoteCalled = true :=
  ⟨rfl, rfl, rfl, rfl⟩

/-- Claim C1 (amended): while offline, transaction add, category
update and goal contribution reject with their offline error before
any optimistic patch and before any remote call; transaction delete
and goal update have no offline gate and perform the remote call
regardless (goal update also applies its optimistic patch). -/
theorem C1_amended_offline_gate (remote : Except String Unit) :
    addTransactionRun true false true remote =
      ⟨some OFFLINE_ADD_TXN_MSG, false, false, false⟩ ∧
    updateCategoryRun true false remote =
      ⟨some OFFLINE_UPDATE_CAT_MSG, false, false, false⟩ ∧
    addContributionRun true false remote =
      ⟨some OFFLINE_ADD_CONTRIB_MSG, false, false, false⟩ ∧
    (updateGoalRun true false remote).optimisticApplied = true ∧
    (updateGoalRun true false remote).remoteCalled = true ∧
    (deleteTransactionRun true false remote).remoteCalled = true := by
  cases remote <;> exact ⟨rfl, rfl, rfl, rfl, rfl, rfl⟩

/-- Claim C2: evaluation at the failing input.  On a category whose
patched field holds 100, `updateCategoryMutation` with updates 250
and a failing remote call hands `onRollback` a copy of the new
updates (250), not the pre-mutation value, so the field ends at 250
instead of being restored to 100.  The contribution mutation
rollback argument is the negated delta, which does restore the
initial value under delta application. -/
theorem C2_rollback_gets_new_updates :
    updateCategoryMutationRun 100 250 true = (250, some 250) ∧
    ¬ (updateCategoryMutationRun 100 250 true).1 = 100 ∧
    addContributionMutationRun 100 50 true = (100, some (-50)) := by
  refine ⟨rfl, ?_, ?_⟩
  · norm_num [updateCategoryMutationRun]
  · norm_num [addContributionMutationRun]

/-- Claim C3 (counterexample): an entity-service call through the
service-local `withRetry` with `maxRetries = 3` whose operation
always fails is attempted exactly 3 times, not 4, before the last
error is raised. -/
theorem C3_counterexample :
    (serviceWithRetry (fun _ => (Except.error "boom" : Except String Unit)) 3).2 = 3 ∧
    (serviceWithRetry (fun _ => (Except.error "boom" : Except String Unit)) 3).1 =
      .err "boom" ∧
    ¬ (serviceWithRetry (fun _ => (Except.error "boom" : Except String Unit)) 3).2 = 4 :=
  ⟨rfl, rfl, by decide⟩

/-- Claim C3 (amended): with `maxRetries = 3` and an operation that
always fails with a retryable error, the shared `withRetry` of the
retry module attempts the operation exactly 4 times (1 initial + 3
retries) and then raises the last error, while the entity services
local `withRetry` attempts it exactly 3 times (1 initial + 2
retries) and then raises the last error. -/
theorem C3_amended_retry_ceiling {E A : Type} (op : Nat → Except E A)
    (sr : E → Bool) (e : E)
    (hop : ∀ i, op i = .error e) (hsr : sr e = true) :
    (withRetry op sr 3).1 = .err e ∧ (withRetry op sr 3).2 = 4 ∧
    (serviceWithRetry op 3).1 = .err e ∧ (serviceWithRetry op 3).2 = 3 := by
  have h1 := withRetryGo_always_err op sr 3 e hop hsr 3 0 (by omega)
  have h2 := serviceWithRetryGo_always_err op 3 e hop 3 0 (by omega) (by omega)
  unfold withRetry serviceWithRetry
  rw [h1, h2]
  exact ⟨rfl, rfl, rfl, rfl⟩

/-- Witness for C3 (amended) at a concrete always-failing retryable
operation. -/
theorem C3_witness :
    (withRetry (fun _ => (Except.error "boom" : Except String Unit))
      (fun _ => true) 3).2 = 4 ∧
    (serviceWithRetry (fun _ => (Except.error "boom" : Except String Unit)) 3).2 = 3 :=
  ⟨(C3_amended_retry_ceiling _ _ "boom" (fun _ => rfl) rfl).2.1,
   (C3_amended_retry_ceiling _ (fun _ => true) "boom" (fun _ => rfl) rfl).2.2.2⟩

/-- Claim C4 (counterexample): a uniqueness-violation failure
(remote-store code 23505, classified Validation) raised by an
entity-service operation is attempted 3 times by the service-
local `withRetry`, not exactly once: the local wrapper retries on
every error kind. -/
theorem C4_counterexample :
    (transformError
      { code := some "23505", message := some "duplicate key value",
        details := some "Key already exists" }).type = VALIDATION_ERROR ∧
    (serviceWithRetry
      (fun _ => (Except.error
        ({ code := some "23505", message := some "duplicate key value",
           details := some "Key already exists" } : RawError) :
        Except RawError Unit)) 3).2 = 3 ∧
    ¬ (serviceWithRetry
      (fun _ => (Except.error
        ({ code := some "23505", message := some "duplicate key value",
           details := some "Key already exists" } : RawError) :
        Except RawError Unit)) 3).2 = 1 :=
  ⟨rfl, rfl, by decide⟩

/-- Claim C4 (amended): a postgrest-shaped failure with constraint
code 23505 that is not auth-shaped is classified Validation; an
operation that always fails with it is attempted exactly once by
`withDatabaseRetry` (whose predicate rejects it) and exactly 3
times by the entity service-local `withRetry`, which has no
predicate. -/
theorem C4_amended_no_retry_on_validation {A : Type}
    (op : Nat → Except RawError A) (raw : RawError)
    (hop : ∀ i, op i = .error raw)
    (hsup : raw.supabase = none)
    (hauth : authShaped raw = false)
    (hpg : pgShaped raw = true)
    (hcode : raw.code = some "23505") :
    (transformError raw).type = VALIDATION_ERROR ∧
    (withDatabaseRetry op).1 = .err raw ∧ (withDatabaseRetry op).2 = 1 ∧
    (serviceWithRetry op 3).1 = .err raw ∧ (serviceWithRetry op 3).2 = 3 := by
  have htype : transformError raw = ⟨"This record already exists.", VALIDATION_ERROR⟩ := by
    unfold transformError
    rw [hsup]
    simp only [hauth, hpg, Bool.false_eq_true, if_false, if_true]
    unfold transformPostgrestError
    rw [hcode]
    simp
  have hnr : databaseShouldRetry raw = false := by
    unfold databaseShouldRetry isNetworkError
    rw [htype, hcode]
    simp
  have hsvc := serviceWithRetryGo_always_err op 3 raw hop 3 0 (by omega) (by omega)
  have hdb := withRetry_no_retry op databaseShouldRetry 3 raw (hop 0) hnr
  refine ⟨by rw [htype], ?_, ?_, ?_, ?_⟩
  · unfold withDatabaseRetry; rw [hdb]
  · unfold withDatabaseRetry; rw [hdb]
  · unfold serviceWithRetry; rw [hsvc]
  · unfold serviceWithRetry; rw [hsvc]

/-- Witness for C4 (amended) at the concrete 23505 failure. -/
theorem C4_witness :
    (withDatabaseRetry
      (fun _ => (Except.error
        ({ code := some "23505", message := some "duplicate key value",
           details := some "Key already exists" } : RawError) :
        Except RawError Unit))).2 = 1 :=
  (C4_amended_no_retry_on_validation
    (fun _ => (Except.error
      ({ code := some "23505", message := some "duplicate key value",
         details := some "Key already exists" } : RawError) :
      Except RawError Unit))
    { code := some "23505", message := some "duplicate key value",
      details := some "Key already exists" }
    (fun _ => rfl) rfl rfl rfl rfl).2.2.1

/-- Claim C5 (counterexample): a failure from the auth subsystem
whose message is the duplicate-registration message is classified
Validation, not Auth. -/
theorem C5_counterexample :
    (transformError
      { name := some "AuthError",
        message := some "User already registered" }).type = VALIDATION_ERROR ∧
    ¬ (transformError
      { name := some "AuthError",
        message := some "User already registered" }).type = AUTH_ERROR :=
  ⟨rfl, by decide⟩

/-- Claim C5 (amended): the classifier rules as implemented.
Already-classified errors pass through unchanged; for errors that
are not auth-shaped, postgrest-shaped failures map 23505 and 23503
to Validation with the uniqueness and foreign-key messages and
PGRST301 to Permission; auth-shaped failures map invalid
credentials and unconfirmed email to Auth but duplicate
registration to Validation, defaulting to Auth; remaining failures
whose message indicates a fetch/connectivity failure become
Network; everything else becomes Unknown.  (The auth-shape check
precedes the postgrest-shape check in the source.) -/
theorem C5_amended_classifier_rules :
    (∀ (e : RawError) (s : SupabaseErrorRec),
      e.supabase = some s → transformError e = s) ∧
    (∀ e : RawError, e.supabase = none → authShaped e = false →
      pgShaped e = true → e.code = some "23505" →
      transformError e = ⟨"This record already exists.", VALIDATION_ERROR⟩) ∧
    (∀ e : RawError, e.supabase = none → authShaped e = false →
      pgShaped e = true → e.code = some "23503" →
      transformError e =
        ⟨"Invalid reference. The related record does not exist.", VALIDATION_ERROR⟩) ∧
    (∀ e : RawError, e.supabase = none → authShaped e = false →
      pgShaped e = true → e.code = some "PGRST301" →
      transformError e = ⟨PERMISSION_ERROR_MSG, PERMISSION_ERROR⟩) ∧
    (∀ e : RawError, e.supabase = none → authShaped e = true →
      strIncludes (e.message.getD "") "Invalid login credentials" = true →
      transformError e = ⟨"Invalid email or password.", AUTH_ERROR⟩) ∧
    (∀ e : RawError, e.supabase = none → authShaped e = true →
      strIncludes (e.message.getD "") "Invalid login credentials" = false →
      strIncludes (e.message.getD "") "Email not confirmed" = true →
      transformError e =
        ⟨"Please confirm your email address before logging in.", AUTH_ERROR⟩) ∧
    (∀ e : RawError, e.supabase = none → authShaped e = true →
      strIncludes (e.message.getD "") "Invalid login credentials" = false →
      strIncludes (e.message.getD "") "Email not confirmed" = false →
      strIncludes (e.message.getD "") "User already registered" = true →
      transformError e =
        ⟨"An account with this email already exists.", VALIDATION_ERROR⟩) ∧
    (∀ e : RawError, e.supabase = none → authShaped e = true →
      strIncludes (e.message.getD "") "Invalid login credentials" = false →
      strIncludes (e.message.getD "") "Email not confirmed" = false →
      strIncludes (e.message.getD "") "User already registered" = false →
      (transformError e).type = AUTH_ERROR) ∧
    (∀ e : RawError, e.supabase = none → authShaped e = false →
      pgShaped e = false →
      ((e.isTypeError = true ∧ strIncludes (e.message.getD "") "fetch" = true) ∨
        strIncludes (e.message.getD "") "NetworkError" = true ∨
        strIncludes (e.message.getD "") "Failed to fetch" = true) →
      transformError e = ⟨NETWORK_ERROR_MSG, NETWORK_ERROR⟩) ∧
    (∀ e : RawError, e.supabase = none → authShaped e = false →
      pgShaped e = false →
      (e.isTypeError && strIncludes (e.message.getD "") "fetch") = false →
      strIncludes (e.message.getD "") "NetworkError" = false →
      strIncludes (e.message.getD "") "Failed to fetch" = false →
      transformError e = ⟨jsOr e.message UNKNOWN_ERROR_MSG, UNKNOWN_ERROR⟩) := by
  refine ⟨?_, ?_, ?_, ?_, ?_, ?_, ?_, ?_, ?_, ?_⟩
  · intro e s h
    unfold transformError
    rw [h]
  · intro e hsup hauth hpg hcode
    unfold transformError
    rw [hsup]
    simp only [hauth, hpg, Bool.false_eq_true, if_false, if_true]
    unfold transformPostgrestError
    rw [hcode]
    simp
  · intro e hsup hauth hpg hcode
    unfold transformError
    rw [hsup]
    simp only [hauth, hpg, Bool.false_eq_true, if_false, if_true]
    unfold transformPostgrestError
    rw [hcode]
    simp
  · intro e hsup hauth hpg hcode
    unfold transformError
    rw [hsup]
    simp only [hauth, hpg, Bool.false_eq_true, if_false, if_true]
    unfold transformPostgrestError
    rw [hcode]
    simp
  · intro e hsup hauth hinv
    unfold transformError
    rw [hsup]
    simp only [hauth, if_true]
    unfold transformAuthError
    rw [hinv]
    simp
  · intro e hsup hauth hinv hconf
    unfold transformError
    rw [hsup]
    simp only [hauth, if_true]
    unfold transformAuthError
    rw [hinv, hconf]
    simp
  · intro e hsup hauth hinv hconf hdup
    unfold transformError
    rw [hsup]
    simp only [hauth, if_true]
    unfold transformAuthError
    rw [hinv, hconf, hdup]
    simp
  · intro e hsup hauth hinv hconf hdup
    unfold transformError
    rw [hsup]
    simp only [hauth, if_true]
    unfold transformAuthError
    rw [hinv, hconf, hdup]
    simp
  · intro e hsup hauth hpg hnet
    unfold transformError
    rw [hsup]
    simp only [hauth, hpg, Bool.false_eq_true, if_false]
    rcases hnet with ⟨ht, hf⟩ | hn | hf
    · simp [ht, hf]
    · cases hft : (e.isTypeError && strIncludes (e.message.getD "") "fetch") <;>
        simp [hft, hn]
    · cases hft : (e.isTypeError && strIncludes (e.message.getD "") "fetch") <;>
        simp [hft, hf]
  · intro e hsup hauth hpg hft hn hf
    unfold transformError
    rw [hsup]
    simp [hauth, hpg, hft, hn, hf]

/-- Witness for C5 (amended): the 23505 conflict error is mapped to
Validation with the uniqueness message. -/
theorem C5_witness :
    transformError
      { code := some "23505", message := some "duplicate key value",
        details := some "Key already exists" } =
      ⟨"This record already exists.", VALIDATION_ERROR⟩ :=
  C5_amended_classifier_rules.2.1
    { code := some "23505", message := some "duplicate key value",
      details := some "Key already exists" } rfl rfl rfl rfl

/-- Claim C6 (counterexample): after a successful load-more fetch
(`reset = false`), the exposed collection is the old page plus the
new page but the cache still holds only the old page, so the cache
does not equal the exposed collection. -/
theorem C6_counterexample :
    (fetchTransactionsStep 1 false ⟨[1], some [1], 1, true, none, false⟩
      (.ok [2])).transactions = [1, 2] ∧
    (fetchTransactionsStep 1 false ⟨[1], some [1], 1, true, none, false⟩
      (.ok [2])).cache = some [1] ∧
    ¬ (fetchTransactionsStep 1 false ⟨[1], some [1], 1, true, none, false⟩
      (.ok [2])).cache =
      some (fetchTransactionsStep 1 false ⟨[1], some [1], 1, true, none, false⟩
        (.ok [2])).transactions :=
  ⟨rfl, rfl, by decide⟩

/-- Claim C6 (amended): after every successful full (reset) fetch
and every realtime-subscription update, for transactions,
categories and goals, the cache equals exactly the exposed
collection; after a successful load-more fetch the page is
appended to the exposed collection but the cache is left
unchanged. -/
theorem C6_amended_cache_fidelity :
    (∀ (α : Type) (limit : Nat) (st : TxnSyncState α) (data : List α),
      (fetchTransactionsStep limit true st (.ok data)).cache =
        some (fetchTransactionsStep limit true st (.ok data)).transactions) ∧
    (∀ (α : Type) (limit : Nat) (st : TxnSyncState α) (updated : List α),
      (realtimeTransactionsUpdate limit st updated).cache =
        some (realtimeTransactionsUpdate limit st updated).transactions) ∧
    (∀ (α : Type) (st : GoalsSyncState α) (data : List α),
      (fetchGoalsStep st (.ok data)).cache =
        some (fetchGoalsStep st (.ok data)).goals) ∧
    (∀ (data : List SCat) (createResult : String → SCat),
      (fetchCategoriesSuccess data createResult).cache =
        some (fetchCategoriesSuccess data createResult).categories) ∧
    (∀ (st : CatSyncState) (updated : List SCat),
      (realtimeCategoriesUpdate st updated).cache =
        some (realtimeCategoriesUpdate st updated).categories) ∧
    (∀ (α : Type) (limit : Nat) (st : TxnSyncState α) (data : List α),
      (fetchTransactionsStep limit false st (.ok data)).transactions =
        st.transactions ++ data ∧
      (fetchTransactionsStep limit false st (.ok data)).cache = st.cache) := by
  refine ⟨?_, ?_, ?_, ?_, ?_, ?_⟩
  · intro α limit st data; rfl
  · intro α limit st updated; rfl
  · intro α st data; rfl
  · intro data createResult
    simp only [fetchCategoriesSuccess]
    split <;> rfl
  · intro st updated; rfl
  · intro α limit st data; exact ⟨rfl, rfl⟩

/-- Claim C9 (counterexample): with the random draw 3/4 (a legal
value in [0, 1), giving jitter 5/4), the backoff delay for
attempt 2, base 1000 and cap 10000 is 5000, outside the interval
[1500, 4500] the claim states. -/
theorem C9_counterexample :
    (0 ≤ (3 / 4 : ℚ) ∧ (3 / 4 : ℚ) < 1) ∧
    calculateBackoffDelay 2 1000 10000 (3 / 4) = 5000 ∧
    ¬ calculateBackoffDelay 2 1000 10000 (3 / 4) ≤ 4500 := by
  refine ⟨⟨by norm_num, by norm_num⟩, ?_, ?_⟩ <;>
    norm_num [calculateBackoffDelay, min_def]

/-- Claim C9 (amended): the backoff delay equals
`min (base * 2 ^ attempt * jitter) max` for `jitter = 1/2 + random`
in [1/2, 3/2); for attempt 2, base 1000 and cap 10000 the delay
lies in [2000, 6000). -/
theorem C9_amended_backoff (attempt : Nat) (base maxD random : ℚ)
    (h0 : 0 ≤ random) (h1 : random < 1) :
    calculateBackoffDelay attempt base maxD random =
      min (base * 2 ^ attempt * (1 / 2 + random)) maxD ∧
    (1 / 2 ≤ 1 / 2 + random ∧ 1 / 2 + random < 3 / 2) ∧
    2000 ≤ calculateBackoffDelay 2 1000 10000 random ∧
    calculateBackoffDelay 2 1000 10000 random < 6000 := by
  have hval : calculateBackoffDelay 2 1000 10000 random =
      1000 * 2 ^ 2 * (1 / 2 + random) := by
    unfold calculateBackoffDelay
    exact min_eq_left (by nlinarith)
  refine ⟨rfl, ⟨by linarith, by linarith⟩, ?_, ?_⟩ <;> rw [hval] <;> nlinarith

/-- Witness for C9 (amended) at the random draw 0. -/
theorem C9_witness :
    (0 ≤ (0 : ℚ) ∧ (0 : ℚ) < 1) ∧
    2000 ≤ calculateBackoffDelay 2 1000 10000 0 :=
  ⟨⟨le_refl 0, by norm_num⟩,
   (C9_amended_backoff 2 1000 10000 0 (le_refl 0) (by norm_num)).2.2.1⟩

/-- Claim C10 (counterexample): two change events arriving before
the first refetch resolves put two `list` calls in flight at once;
the duplicate trigger is not suppressed. -/
theorem C10_counterexample :
    maxInFlight [SyncStep.change, SyncStep.change] = 2 ∧
    ¬ maxInFlight [SyncStep.change, SyncStep.change] ≤ 1 :=
  ⟨rfl, by decide⟩

/-- Claim C10 (amended): the subscription handler starts a refetch
on every change event regardless of how many are pending, so n
back-to-back change events with no resolution in between leave n
`list` calls in flight. -/
theorem C10_amended_no_coalescing :
    (∀ pending : Nat, stepInFlight pending SyncStep.change = pending + 1) ∧
    (∀ n : Nat, inFlightAfter (List.replicate n SyncStep.change) = n) := by
  have hfold : ∀ (n k : Nat),
      (List.replicate n SyncStep.change).foldl stepInFlight k = k + n := by
    intro n
    induction n with
    | zero => intro k; simp
    | succ m ih =>
      intro k
      rw [List.replicate_succ, List.foldl_cons]
      rw [ih (stepInFlight k SyncStep.change)]
      simp [stepInFlight, changeHandlerStartsFetch]
      omega
  exact ⟨fun pending => rfl, fun n => by
    unfold inFlightAfter
    rw [hfold n 0]
    omega⟩
